import Mathlib

/-!
Verification development for the event-triage pipeline of the
Intelligent Backend Operations Agent repository.

The embedding covers the three decision stages and the payload validator:

* `IBOA.Analysis`    — `src/agents/services/ai_agent_service.py`
  (`AnalysisAgent._rule_based_classification`, `AnalysisAgent.analyze`)
* `IBOA.Router`      — `src/agents/services/event_router.py`
  (`EventRouter` routing rules, custom-rule application, `route`)
* `IBOA.Exec`        — `src/Legacy_folder/agent_api.py`
  (`ActionExecutor` handlers, dispatch, error responses)
* `IBOA.Validation`  — `src/agents/services/validation_module.py`
  (`PayloadValidator`)

Python dictionaries are modelled as association lists or as functions into
`Option`; Python floats occurring here are exact decimal constants and are
modelled as rationals; side effects (logging, email, workflow handoff) are
modelled through explicit environment records holding the externally
determined results of the notification port.
-/

namespace IBOA

/-! ## Shared string helpers (Python `in`, `lower`, `upper`, `split`) -/

/-- Does the second list start with the first one?  Models Python
`str.startswith` on the underlying character sequences. -/
def startsWithL : List Char → List Char → Bool
  | [], _ => true
  | _ :: _, [] => false
  | a :: as, b :: bs => a = b && startsWithL as bs

/-- Is `needle` a contiguous substring of the second list?  Models the Python
expression `needle in haystack` for strings. -/
def infixOfL (needle : List Char) : List Char → Bool
  | [] => needle.isEmpty
  | b :: bs => startsWithL needle (b :: bs) || infixOfL needle bs

/-- Models Python `str.lower` character-wise. -/
def lowerL (l : List Char) : List Char := l.map Char.toLower

/-- Models Python `str.upper` on a string. -/
def upperS (s : String) : String := ⟨s.data.map Char.toUpper⟩

/-- The part of `l` after the last occurrence of `c` (the whole list when `c`
does not occur).  Models Python `s.split(c)[-1]`. -/
def afterLast (c : Char) (l : List Char) : List Char :=
  (l.reverse.takeWhile (fun x => x ≠ c)).reverse

namespace Analysis

/-! ## `ai_agent_service.py` — the Analysis agent -/

/-- `EventCategory` from `ai_agent_service.py` (four values; the router's
`EventType` is a distinct five-value enumeration). -/
inductive EventCategory where
  | VALIDATION_ERROR
  | SYSTEM_ERROR
  | SECURITY_ISSUE
  | IGNORABLE
deriving DecidableEq, Repr

/-- `SeverityLevel` from `ai_agent_service.py` (three values only). -/
inductive SeverityLevel where
  | LOW
  | MEDIUM
  | HIGH
deriving DecidableEq, Repr

/-- `AnalysisResult` dataclass. -/
structure AnalysisResult where
  category : EventCategory
  severity : SeverityLevel
  confidence : ℚ
  reasoning : String
deriving DecidableEq, Repr

def securityKeywords : List String :=
  ["unauthorized", "forbidden", "authentication", "injection"]

def validationKeywords : List String :=
  ["invalid", "validation", "required field", "format"]

def systemKeywords : List String :=
  ["database", "connection", "timeout", "internal server"]

/-- `any(keyword in message_lower for keyword in kws)`. -/
def matchesAny (messageLower : List Char) (kws : List String) : Bool :=
  kws.any (fun kw => infixOfL kw.data messageLower)

/-- `AnalysisAgent._rule_based_classification`.  The Python method also
receives `error_type` and `context`, but only `message` is inspected. -/
def ruleBasedClassification (message : String) : AnalysisResult :=
  let messageLower := lowerL message.data
  if matchesAny messageLower securityKeywords then
    { category := .SECURITY_ISSUE, severity := .HIGH, confidence := mkRat 85 100,
      reasoning := "Detected security-related keywords in error message" }
  else if matchesAny messageLower validationKeywords then
    { category := .VALIDATION_ERROR, severity := .LOW, confidence := mkRat 90 100,
      reasoning := "Detected validation-related keywords" }
  else if matchesAny messageLower systemKeywords then
    { category := .SYSTEM_ERROR, severity := .MEDIUM, confidence := mkRat 80 100,
      reasoning := "Detected system-level error indicators" }
  else
    { category := .IGNORABLE, severity := .LOW, confidence := mkRat 70 100,
      reasoning := "No critical patterns detected" }

/-- `AnalysisAgent.analyze`: extracts `payload.get('message', '')` and (through
`_call_watsonx_classifier`, whose watsonx branch is stubbed out in the source)
classifies with the rule-based fallback.  Only the string-valued fields of the
payload are relevant here, so the payload is an association list of strings. -/
def analyze (payload : List (String × String)) : AnalysisResult :=
  ruleBasedClassification ((payload.lookup "message").getD "")

end Analysis

namespace Router

/-! ## `event_router.py` — the Event Router -/

/-- `EventType` enum from `event_router.py`. -/
inductive EventType where
  | VALIDATION_ERROR
  | SYSTEM_ERROR
  | SECURITY_ISSUE
  | PERFORMANCE_ISSUE
  | IGNORABLE
deriving DecidableEq, Repr, Fintype

/-- `SeverityLevel` enum from `event_router.py` (four values, unlike the
3-value enumeration of the Analysis agent). -/
inductive SeverityLevel where
  | LOW
  | MEDIUM
  | HIGH
  | CRITICAL
deriving DecidableEq, Repr, Fintype

/-- `ActionType` enum from `event_router.py`. -/
inductive ActionType where
  | LOG_ONLY
  | NOTIFY_ADMIN
  | TRIGGER_WORKFLOW
  | ESCALATE
deriving DecidableEq, Repr, Fintype

/-- The `.value` string of an `EventType`. -/
def EventType.value : EventType → String
  | .VALIDATION_ERROR => "validation_error"
  | .SYSTEM_ERROR => "system_error"
  | .SECURITY_ISSUE => "security_issue"
  | .PERFORMANCE_ISSUE => "performance_issue"
  | .IGNORABLE => "ignorable"

/-- The `.value` string of a `SeverityLevel`. -/
def SeverityLevel.value : SeverityLevel → String
  | .LOW => "low"
  | .MEDIUM => "medium"
  | .HIGH => "high"
  | .CRITICAL => "critical"

/-- The `.value` string of an `ActionType`. -/
def ActionType.value : ActionType → String
  | .LOG_ONLY => "log_only"
  | .NOTIFY_ADMIN => "notify_admin"
  | .TRIGGER_WORKFLOW => "trigger_workflow"
  | .ESCALATE => "escalate"

/-- The enum constructor `EventType(s)`: `some` on a value string, `none`
standing for the `ValueError` it raises otherwise. -/
def parseEventType : String → Option EventType
  | "validation_error" => some .VALIDATION_ERROR
  | "system_error" => some .SYSTEM_ERROR
  | "security_issue" => some .SECURITY_ISSUE
  | "performance_issue" => some .PERFORMANCE_ISSUE
  | "ignorable" => some .IGNORABLE
  | _ => none

/-- The enum constructor `SeverityLevel(s)`. -/
def parseSeverity : String → Option SeverityLevel
  | "low" => some .LOW
  | "medium" => some .MEDIUM
  | "high" => some .HIGH
  | "critical" => some .CRITICAL
  | _ => none

/-- The enum constructor `ActionType(s)`. -/
def parseAction : String → Option ActionType
  | "log_only" => some .LOG_ONLY
  | "notify_admin" => some .NOTIFY_ADMIN
  | "trigger_workflow" => some .TRIGGER_WORKFLOW
  | "escalate" => some .ESCALATE
  | _ => none

/-- `self.routing_rules`: the two-level dict keyed on event type and severity.
After `_initialize_routing_rules` the outer dict always holds all five event
types, so the table is modelled as one partial map on pairs; `none` stands for
a `(event type, severity)` key that is absent. -/
abbrev RoutingRules := EventType → SeverityLevel → Option (ActionType × Int)

/-- The default table built by `EventRouter._initialize_routing_rules`
(lines 99–139 of `event_router.py`), entry for entry. -/
def defaultRules : RoutingRules := fun et sev =>
  match et, sev with
  | .SECURITY_ISSUE, .CRITICAL => some (.ESCALATE, 1)
  | .SECURITY_ISSUE, .HIGH => some (.ESCALATE, 1)
  | .SECURITY_ISSUE, .MEDIUM => some (.NOTIFY_ADMIN, 2)
  | .SECURITY_ISSUE, .LOW => some (.NOTIFY_ADMIN, 3)
  | .SYSTEM_ERROR, .CRITICAL => some (.ESCALATE, 1)
  | .SYSTEM_ERROR, .HIGH => some (.TRIGGER_WORKFLOW, 2)
  | .SYSTEM_ERROR, .MEDIUM => some (.NOTIFY_ADMIN, 3)
  | .SYSTEM_ERROR, .LOW => some (.LOG_ONLY, 4)
  | .PERFORMANCE_ISSUE, .CRITICAL => some (.TRIGGER_WORKFLOW, 2)
  | .PERFORMANCE_ISSUE, .HIGH => some (.TRIGGER_WORKFLOW, 2)
  | .PERFORMANCE_ISSUE, .MEDIUM => some (.NOTIFY_ADMIN, 3)
  | .PERFORMANCE_ISSUE, .LOW => some (.LOG_ONLY, 4)
  | .VALIDATION_ERROR, .CRITICAL => some (.NOTIFY_ADMIN, 3)
  | .VALIDATION_ERROR, .HIGH => some (.NOTIFY_ADMIN, 3)
  | .VALIDATION_ERROR, .MEDIUM => some (.LOG_ONLY, 4)
  | .VALIDATION_ERROR, .LOW => some (.LOG_ONLY, 5)
  | .IGNORABLE, _ => some (.LOG_ONLY, 5)

/-- `self.routing_rules[event_type][severity] = (action, priority)`. -/
def updateRule (r : RoutingRules) (et : EventType) (sev : SeverityLevel)
    (v : ActionType × Int) : RoutingRules :=
  fun et' sev' =>
    if et' = et then (if sev' = sev then some v else r et' sev') else r et' sev'

/-- The `custom_rules` constructor argument: an ordered association list
mirroring a Python dict `{event_type_str: {severity_str: (action_str,
priority)}}` in insertion order. -/
abbrev CustomRules := List (String × List (String × (String × Int)))

/-- The inner loop of `EventRouter._apply_custom_rules` for one event type.
A `parseSeverity`/`parseAction` failure models the `ValueError` raised by the
enum constructor: it aborts the rest of this group (the `try` block wraps the
whole inner `for`), while keeping the assignments already made. -/
def applyGroup (r : RoutingRules) (et : EventType) :
    List (String × (String × Int)) → RoutingRules
  | [] => r
  | (sevStr, (actStr, priority)) :: rest =>
    match parseSeverity sevStr with
    | none => r
    | some sev =>
      match parseAction actStr with
      | none => r
      | some act => applyGroup (updateRule r et sev (act, priority)) et rest

/-- The outer loop of `EventRouter._apply_custom_rules`: an unknown event-type
token (or an aborted inner loop) is caught by `except (ValueError, KeyError):
continue`, so processing proceeds with the next group. -/
def applyCustomRules (r : RoutingRules) : CustomRules → RoutingRules
  | [] => r
  | (etStr, group) :: rest =>
    match parseEventType etStr with
    | none => applyCustomRules r rest
    | some et => applyCustomRules (applyGroup r et group) rest

/-- `EventRouter.__init__` → `_initialize_routing_rules` → `_apply_custom_rules`:
the routing table held by a router constructed with the given custom rules. -/
def initRoutingRules (custom : CustomRules) : RoutingRules :=
  applyCustomRules defaultRules custom

/-- `AnalyzedEvent` dataclass (the optional `timestamp` field is never read by
the router and is omitted). -/
structure AnalyzedEvent where
  event_type : EventType
  severity : SeverityLevel
  message : String
  context : List (String × String)
deriving DecidableEq, Repr

/-- `EventRouter._get_action_for_event`: table lookup with the
`(LOG_ONLY, 5)` fallback for a key that is absent at either level. -/
def getActionForEvent (rules : RoutingRules) (et : EventType)
    (sev : SeverityLevel) : ActionType × Int :=
  match rules et sev with
  | some p => p
  | none => (.LOG_ONLY, 5)

/-- `EventRouter._generate_reason` (the `reasons` dict holds all four actions,
so the `.get` default branch is unreachable). -/
def generateReason (event : AnalyzedEvent) (action : ActionType) : String :=
  match action with
  | .LOG_ONLY =>
      "Event classified as " ++ event.event_type.value ++ " with " ++
        event.severity.value ++ " severity - logging for record keeping"
  | .NOTIFY_ADMIN =>
      "Event requires admin attention: " ++ event.event_type.value ++
        " with " ++ event.severity.value ++ " severity"
  | .TRIGGER_WORKFLOW =>
      "Event triggers automated workflow: " ++ event.event_type.value ++
        " with " ++ event.severity.value ++ " severity"
  | .ESCALATE =>
      "Critical event requiring immediate escalation: " ++
        event.event_type.value ++ " with " ++ event.severity.value ++ " severity"

/-- `EventRouter._determine_workflow_type`. -/
def determineWorkflowType (event : AnalyzedEvent) : String :=
  match event.event_type with
  | .SYSTEM_ERROR => "system_recovery"
  | .PERFORMANCE_ISSUE => "performance_optimization"
  | .SECURITY_ISSUE => "security_response"
  | _ => "generic_handler"

/-- Values of the metadata dict built by `_build_metadata`. -/
inductive MetaVal where
  | s : String → MetaVal
  | b : Bool → MetaVal
  | ls : List String → MetaVal
  | ctx : List (String × String) → MetaVal
deriving DecidableEq, Repr

/-- `EventRouter._build_metadata`, in the dict's insertion order. -/
def buildMetadata (event : AnalyzedEvent) (action : ActionType) :
    List (String × MetaVal) :=
  [("event_type", .s event.event_type.value),
   ("severity", .s event.severity.value),
   ("message", .s event.message),
   ("requires_immediate_action",
    .b (decide (action = .ESCALATE ∨ action = .TRIGGER_WORKFLOW))),
   ("user_facing", .b (decide (event.event_type = .VALIDATION_ERROR)))]
  ++ (match action with
      | .ESCALATE =>
          [("escalation_level", .s "immediate"),
           ("notify_channels", .ls ["email", "sms", "slack"])]
      | .NOTIFY_ADMIN => [("notify_channels", .ls ["email", "slack"])]
      | .TRIGGER_WORKFLOW =>
          [("workflow_type", .s (determineWorkflowType event))]
      | .LOG_ONLY => [])
  ++ [("original_context", .ctx event.context)]

/-- `RoutingDecision` dataclass. -/
structure RoutingDecision where
  action : ActionType
  priority : Int
  reason : String
  metadata : List (String × MetaVal)
deriving DecidableEq, Repr

/-- `EventRouter.route`. -/
def route (rules : RoutingRules) (event : AnalyzedEvent) : RoutingDecision :=
  let ap := getActionForEvent rules event.event_type event.severity
  { action := ap.1
    priority := ap.2
    reason := generateReason event ap.1
    metadata := buildMetadata event ap.1 }

end Router

namespace Exec

/-! ## `Legacy_folder/agent_api.py` — the Action Executor

The executor's environment (admin recipient configuration and the outcome of
the `send_mail` call at the notification port) is passed explicitly; the
wall-clock `execution_time` stamp is an opaque input that every outcome copies
unchanged, so it is not modelled. -/

/-- The validated decision payload handed to `ActionExecutor.execute`
(the serializer guarantees all keys are present; `context` and `metadata`
default to empty dicts). -/
structure DecisionData where
  action : String
  priority : Int
  event_type : String
  severity : String
  message : String
  context : List (String × String)
  metadata : List (String × String)
deriving DecidableEq, Repr

/-- A value in the `details` dict of an execution outcome. -/
inductive DetailVal where
  | s : String → DetailVal
  | n : Nat → DetailVal
  | b : Bool → DetailVal
deriving DecidableEq, Repr

/-- The result dict each handler returns (`execution_time` omitted, see
above; handlers that return no `details` key are modelled with `[]`). -/
structure Outcome where
  success : Bool
  action : String
  message : String
  details : List (String × DetailVal)
deriving DecidableEq, Repr

/-- External state of one `execute` call: the configured admin recipient list
(`_get_admin_emails`) and the result of the notification port — `none` when
`send_mail` succeeds, `some e` when it raises an exception rendering as `e`. -/
structure ExecEnv where
  adminEmails : List String
  mailError : Option String
deriving DecidableEq, Repr

/-- `logging.INFO`. -/
def logINFO : Nat := 20

/-- `logging.WARNING`. -/
def logWARNING : Nat := 30

/-- `logging.ERROR`. -/
def logERROR : Nat := 40

/-- `logging.CRITICAL`. -/
def logCRITICAL : Nat := 50

/-- `ActionExecutor._get_log_level`: `mapping.get(severity, logging.INFO)`. -/
def getLogLevel (severity : String) : Nat :=
  if severity = "low" then logINFO
  else if severity = "medium" then logWARNING
  else if severity = "high" then logERROR
  else if severity = "critical" then logCRITICAL
  else logINFO

/-- `logging.getLevelName` restricted to the levels this module uses. -/
def getLevelName (level : Nat) : String :=
  if level = logCRITICAL then "CRITICAL"
  else if level = logERROR then "ERROR"
  else if level = logWARNING then "WARNING"
  else if level = logINFO then "INFO"
  else "Level " ++ toString level

/-- `ActionExecutor._handle_log_only` (the `logger.log` call is a pure side
effect and contributes nothing to the returned dict). -/
def handleLogOnly (data : DecisionData) : Outcome :=
  { success := true
    action := "log_only"
    message := "Event logged successfully"
    details := [("log_level", .s (getLevelName (getLogLevel data.severity))),
                ("event_type", .s data.event_type)] }

/-- The subject line built by `_handle_notify_admin`. -/
def notifySubject (data : DecisionData) : String :=
  "[AI Agent Alert] " ++ data.event_type ++ " - " ++ upperS data.severity

/-- `ActionExecutor._handle_notify_admin`: logs first (result discarded), then
fails with `"No admin emails configured"` on an empty recipient list, then
converts any `send_mail` exception into a `success=False` outcome. -/
def handleNotifyAdmin (env : ExecEnv) (data : DecisionData) : Outcome :=
  if env.adminEmails.isEmpty then
    { success := false
      action := "notify_admin"
      message := "No admin emails configured"
      details := [] }
  else
    match env.mailError with
    | none =>
      { success := true
        action := "notify_admin"
        message := "Admin notification sent to " ++
          toString env.adminEmails.length ++ " recipient(s)"
        details := [("recipients", .n env.adminEmails.length),
                    ("subject", .s (notifySubject data))] }
    | some e =>
      { success := false
        action := "notify_admin"
        message := "Failed to send notification: " ++ e
        details := [] }

/-- `ActionExecutor._handle_trigger_workflow`: resolves the workflow type from
`metadata` with default `"generic_handler"` and always succeeds (the handoff
is fire-and-forget). -/
def handleTriggerWorkflow (data : DecisionData) : Outcome :=
  let workflowType := (data.metadata.lookup "workflow_type").getD "generic_handler"
  { success := true
    action := "trigger_workflow"
    message := "Workflow triggered: " ++ workflowType
    details := [("workflow_type", .s workflowType),
                ("event_type", .s data.event_type)] }

/-- `ActionExecutor._handle_escalate`: critical log, then the notify and
workflow sub-calls, composed into an unconditionally successful outcome whose
details carry the two sub-outcomes' success flags. -/
def handleEscalate (env : ExecEnv) (data : DecisionData) : Outcome :=
  let notificationResult := handleNotifyAdmin env data
  let workflowResult := handleTriggerWorkflow data
  { success := true
    action := "escalate"
    message := "Critical escalation initiated"
    details := [("notification_sent", .b notificationResult.success),
                ("workflow_triggered", .b workflowResult.success),
                ("escalation_level", .s "critical"),
                ("event_type", .s data.event_type)] }

/-- `ActionExecutor._error_response`: note the `action` field is the literal
string `"error"`, not the requested action. -/
def errorResponse (errorMessage : String) : Outcome :=
  { success := false
    action := "error"
    message := errorMessage
    details := [] }

/-- The `handlers` dict of `ActionExecutor.execute`. -/
def handlers (env : ExecEnv) : String → Option (DecisionData → Outcome)
  | "log_only" => some handleLogOnly
  | "notify_admin" => some (handleNotifyAdmin env)
  | "trigger_workflow" => some handleTriggerWorkflow
  | "escalate" => some (handleEscalate env)
  | _ => none

/-- The dispatch-and-catch skeleton of `ActionExecutor.execute`, generic in
the handler table so that a handler that raises (`Except.error`) can be
expressed: an unknown action and a raising handler both become
`_error_response` results, never propagated faults. -/
def executeGeneric (table : String → Option (DecisionData → Except String Outcome))
    (data : DecisionData) : Outcome :=
  match table data.action with
  | none => errorResponse ("Unknown action: " ++ data.action)
  | some h =>
    match h data with
    | Except.ok out => out
    | Except.error e => errorResponse ("Failed to execute action: " ++ e)

/-- `ActionExecutor.execute` with the concrete handler table (whose handlers,
as embedded, never raise). -/
def execute (env : ExecEnv) (data : DecisionData) : Outcome :=
  executeGeneric (fun a => (handlers env a).map (fun h d => Except.ok (h d))) data

end Exec

namespace Validation

/-! ## `validation_module.py` — the Payload Validator -/

/-- `FieldType` enum. -/
inductive FieldType where
  | STRING
  | INTEGER
  | FLOAT
  | BOOLEAN
  | LIST
  | DICT
  | EMAIL
  | URL
  | ANY
deriving DecidableEq, Repr

/-- The `.value` string of a `FieldType`. -/
def FieldType.value : FieldType → String
  | .STRING => "string"
  | .INTEGER => "integer"
  | .FLOAT => "float"
  | .BOOLEAN => "boolean"
  | .LIST => "list"
  | .DICT => "dict"
  | .EMAIL => "email"
  | .URL => "url"
  | .ANY => "any"

/-- A Python value as seen by the validator's `isinstance` checks.  `bool` is
kept as its own constructor: the source explicitly excludes booleans from the
integer and float checks, so the subclass relation is never observable. -/
inductive PyVal where
  | str : String → PyVal
  | int : Int → PyVal
  | float : ℚ → PyVal
  | bool : Bool → PyVal
  | list : List PyVal → PyVal
  | dict : List (String × PyVal) → PyVal
  | pynone : PyVal

/-- `FieldSchema` dataclass (the unused `default`/`description` fields are
omitted). -/
structure FieldSchema where
  name : String
  required : Bool
  field_type : FieldType
  validator : Option (PyVal → Bool)

/-- `ValidationResult` dataclass. -/
structure ValidationResult where
  is_valid : Bool
  missing_fields : List String
  message : String
  invalid_fields : Option (List (String × String))

/-- `PayloadValidator._is_valid_email`: `"@" in email and "." in
email.split("@")[-1]`. -/
def isValidEmail (email : String) : Bool :=
  email.data.contains '@' && (afterLast '@' email.data).contains '.'

/-- `PayloadValidator._is_valid_url`. -/
def isValidUrl (url : String) : Bool :=
  startsWithL "http://".data url.data || startsWithL "https://".data url.data

/-- `PayloadValidator._check_type`. -/
def checkType (value : PyVal) (expected : FieldType) : Bool :=
  match expected with
  | .ANY => true
  | .STRING => match value with | .str _ => true | _ => false
  | .INTEGER => match value with | .int _ => true | _ => false
  | .FLOAT => match value with | .int _ => true | .float _ => true | _ => false
  | .BOOLEAN => match value with | .bool _ => true | _ => false
  | .LIST => match value with | .list _ => true | _ => false
  | .DICT => match value with | .dict _ => true | _ => false
  | .EMAIL => match value with | .str s => isValidEmail s | _ => false
  | .URL => match value with | .str s => isValidUrl s | _ => false

/-- The `self.required_fields` set, as the list of required names in schema
order (set membership is what the code observes). -/
def requiredFields (schema : List FieldSchema) : List String :=
  (schema.filter (·.required)).map (·.name)

/-- The `self.all_fields` dict: on duplicate names the comprehension keeps the
last schema entry. -/
def allFields (schema : List FieldSchema) (n : String) : Option FieldSchema :=
  schema.foldl (fun acc f => if f.name = n then some f else acc) Option.none

/-- `PayloadValidator._check_missing_fields`:
`sorted(self.required_fields - payload_keys)` — the sorted, duplicate-free
list of required names missing from the payload. -/
def checkMissingFields (schema : List FieldSchema)
    (payload : List (String × PyVal)) : List String :=
  List.insertionSort (· ≤ ·)
    (((requiredFields schema).filter
        (fun n => !(payload.map Prod.fst).contains n)).dedup)

/-- One iteration of the loop in `PayloadValidator._check_field_validity`:
the error entry recorded for the payload item `kv`, if any.  A field absent
from the schema is skipped; a type mismatch is reported before the custom
validator, which runs only when the type check passed. -/
def fieldError (schema : List FieldSchema) (kv : String × PyVal) :
    Option (String × String) :=
  match allFields schema kv.1 with
  | Option.none => Option.none
  | some fs =>
    if !(checkType kv.2 fs.field_type) then
      some (kv.1, "Invalid type: expected " ++ fs.field_type.value)
    else
      match fs.validator with
      | some v =>
          if !(v kv.2) then some (kv.1, "Failed custom validation")
          else Option.none
      | Option.none => Option.none

/-- `PayloadValidator._check_field_validity`, iterating the payload in order. -/
def checkFieldValidity (schema : List FieldSchema)
    (payload : List (String × PyVal)) : List (String × String) :=
  payload.filterMap (fieldError schema)

/-- `PayloadValidator._generate_message`. -/
def generateMessage (is_valid : Bool) (missing : List String)
    (invalid : List (String × String)) : String :=
  if is_valid then "Validation successful"
  else
    String.intercalate "; "
      ((if missing.isEmpty then [] else
          ["Missing required fields: " ++ String.intercalate ", " missing]) ++
       (if invalid.isEmpty then [] else
          ["Invalid fields: " ++ String.intercalate ", "
             (invalid.map (fun fe => fe.1 ++ " (" ++ fe.2 ++ ")"))]))

/-- `PayloadValidator.validate`. -/
def validate (schema : List FieldSchema)
    (payload : List (String × PyVal)) : ValidationResult :=
  let missing := checkMissingFields schema payload
  let invalid := checkFieldValidity schema payload
  let is_valid := missing.isEmpty && invalid.isEmpty
  { is_valid := is_valid
    missing_fields := missing
    message := generateMessage is_valid missing invalid
    invalid_fields := if invalid.isEmpty then Option.none else some invalid }

end Validation

/-! ## Spec-side reference data and concrete inputs used by the theorems -/

/-- The default routing table exactly as printed in §4.2 of the specification
(spec-side definition, to be compared with the table the source builds). -/
def specRoutingTable : Router.EventType → Router.SeverityLevel →
    Router.ActionType × Int
  | .SECURITY_ISSUE, .LOW => (.NOTIFY_ADMIN, 3)
  | .SECURITY_ISSUE, .MEDIUM => (.NOTIFY_ADMIN, 2)
  | .SECURITY_ISSUE, .HIGH => (.ESCALATE, 1)
  | .SECURITY_ISSUE, .CRITICAL => (.ESCALATE, 1)
  | .SYSTEM_ERROR, .LOW => (.LOG_ONLY, 4)
  | .SYSTEM_ERROR, .MEDIUM => (.NOTIFY_ADMIN, 3)
  | .SYSTEM_ERROR, .HIGH => (.TRIGGER_WORKFLOW, 2)
  | .SYSTEM_ERROR, .CRITICAL => (.ESCALATE, 1)
  | .PERFORMANCE_ISSUE, .LOW => (.LOG_ONLY, 4)
  | .PERFORMANCE_ISSUE, .MEDIUM => (.NOTIFY_ADMIN, 3)
  | .PERFORMANCE_ISSUE, .HIGH => (.TRIGGER_WORKFLOW, 2)
  | .PERFORMANCE_ISSUE, .CRITICAL => (.TRIGGER_WORKFLOW, 2)
  | .VALIDATION_ERROR, .LOW => (.LOG_ONLY, 5)
  | .VALIDATION_ERROR, .MEDIUM => (.LOG_ONLY, 4)
  | .VALIDATION_ERROR, .HIGH => (.NOTIFY_ADMIN, 3)
  | .VALIDATION_ERROR, .CRITICAL => (.NOTIFY_ADMIN, 3)
  | .IGNORABLE, _ => (.LOG_ONLY, 5)

/-- `priorityBounded r` — every priority stored in the table lies in `[1, 5]`. -/
def priorityBounded (r : Router.RoutingRules) : Prop :=
  ∀ et sev a p, r et sev = some (a, p) → 1 ≤ p ∧ p ≤ 5

/-- A custom-rule set whose middle entry for `validation_error` carries the
unknown severity token `"bogus"`; the well-formed `"high"` entry follows it
in the same group. -/
def badSeverityOverride : Router.CustomRules :=
  [("validation_error",
    [("low", ("notify_admin", 2)),
     ("bogus", ("log_only", 1)),
     ("high", ("escalate", 1))])]

/-- A well-formed custom-rule set whose priority `42` lies outside `[1, 5]`;
the source applies it without any range check. -/
def badPriorityOverride : Router.CustomRules :=
  [("validation_error", [("high", ("notify_admin", 42))])]

/-- A custom-rule set with every override priority inside `[1, 5]`. -/
def inRangeOverride : Router.CustomRules :=
  [("validation_error", [("high", ("notify_admin", 2))])]

/-- The event routed in the override examples. -/
def overrideEvent : Router.AnalyzedEvent :=
  { event_type := .VALIDATION_ERROR
    severity := .HIGH
    message := "Critical validation failure"
    context := [] }

/-- A concrete `notify_admin` decision payload. -/
def dataNotify : Exec.DecisionData :=
  { action := "notify_admin"
    priority := 2
    event_type := "system_error"
    severity := "medium"
    message := "Database connection timeout"
    context := []
    metadata := [] }

/-- A decision payload carrying an action token outside the handler table. -/
def dataUnknownAction : Exec.DecisionData :=
  { action := "purge_cache"
    priority := 3
    event_type := "system_error"
    severity := "low"
    message := "stale cache"
    context := []
    metadata := [] }

/-- A handler table whose only behaviour is to raise. -/
def raisingTable : String → Option (Exec.DecisionData → Except String Exec.Outcome) :=
  fun _ => some (fun _ => Except.error "boom")

/-- Schema of one required integer field: exhibits a payload that contains
every required field plus extras and is nevertheless invalid. -/
def typedSchema : List Validation.FieldSchema :=
  [{ name := "age", required := true, field_type := .INTEGER,
     validator := Option.none }]

/-- Payload for `typedSchema`: the required `"age"` is present but holds a
string; `"debug"` is an extra undeclared field. -/
def typedPayload : List (String × Validation.PyVal) :=
  [("age", .str "thirty"), ("debug", .bool true)]

/-- An all-`ANY` schema with one required field, as built by the
`validate_payload` quick helper. -/
def anySchema : List Validation.FieldSchema :=
  [{ name := "username", required := true, field_type := .ANY,
     validator := Option.none }]

/-- Payload for `anySchema`: required field present plus one extra. -/
def anyPayload : List (String × Validation.PyVal) :=
  [("username", .str "jo"), ("extra", .int 7)]

/-! ## Theorems -/

/-- C1: For every (category, severity) pair listed in the default routing
table of §4.2, the router lookup (`route`/`_get_action_for_event` with no
custom rules) returns exactly the (action, priority) given in that table, and
any (category, severity) pair not present in the table resolves to
`(LOG_ONLY, 5)`. -/
theorem default_table_matches_spec :
    (∀ et sev, Router.getActionForEvent Router.defaultRules et sev =
        specRoutingTable et sev) ∧
    (∀ ev : Router.AnalyzedEvent,
        ((Router.route Router.defaultRules ev).action,
         (Router.route Router.defaultRules ev).priority) =
          specRoutingTable ev.event_type ev.severity) ∧
    (∀ (rules : Router.RoutingRules) et sev, rules et sev = Option.none →
        Router.getActionForEvent rules et sev =
          (Router.ActionType.LOG_ONLY, 5)) := by
  refine ⟨by decide, fun ev => ?_, fun rules et sev h => ?_⟩
  · have h1 : ∀ et sev, Router.getActionForEvent Router.defaultRules et sev =
        specRoutingTable et sev := by decide
    exact h1 ev.event_type ev.severity
  · simp [Router.getActionForEvent, h]

/-- Witness for `default_table_matches_spec` at a table with an absent pair. -/
theorem default_table_matches_spec_witness :
    Router.getActionForEvent (fun _ _ => Option.none)
      Router.EventType.IGNORABLE Router.SeverityLevel.LOW =
      (Router.ActionType.LOG_ONLY, 5) :=
  default_table_matches_spec.2.2 (fun _ _ => Option.none)
    Router.EventType.IGNORABLE Router.SeverityLevel.LOW rfl

/-- C2: Classification is total and deterministic; the four rules of §4.1 fire
in priority order (security, then validation, then system, then the fallback),
rule 1 pre-empting rules 2–3.  A message containing both "unauthorized" and
"invalid" classifies as SecurityIssue/High/0.85, and an unmatched message
yields Ignorable/Low/0.70. -/
theorem classification_rule_order (message : String) :
    (Analysis.matchesAny (lowerL message.data) Analysis.securityKeywords = true →
      Analysis.ruleBasedClassification message =
        { category := .SECURITY_ISSUE, severity := .HIGH,
          confidence := mkRat 85 100,
          reasoning := "Detected security-related keywords in error message" }) ∧
    (Analysis.matchesAny (lowerL message.data) Analysis.securityKeywords = false →
     Analysis.matchesAny (lowerL message.data) Analysis.validationKeywords = true →
      Analysis.ruleBasedClassification message =
        { category := .VALIDATION_ERROR, severity := .LOW,
          confidence := mkRat 90 100,
          reasoning := "Detected validation-related keywords" }) ∧
    (Analysis.matchesAny (lowerL message.data) Analysis.securityKeywords = false →
     Analysis.matchesAny (lowerL message.data) Analysis.validationKeywords = false →
     Analysis.matchesAny (lowerL message.data) Analysis.systemKeywords = true →
      Analysis.ruleBasedClassification message =
        { category := .SYSTEM_ERROR, severity := .MEDIUM,
          confidence := mkRat 80 100,
          reasoning := "Detected system-level error indicators" }) ∧
    (Analysis.matchesAny (lowerL message.data) Analysis.securityKeywords = false →
     Analysis.matchesAny (lowerL message.data) Analysis.validationKeywords = false →
     Analysis.matchesAny (lowerL message.data) Analysis.systemKeywords = false →
      Analysis.ruleBasedClassification message =
        { category := .IGNORABLE, severity := .LOW,
          confidence := mkRat 70 100,
          reasoning := "No critical patterns detected" }) ∧
    Analysis.ruleBasedClassification "Unauthorized access with invalid token" =
      { category := .SECURITY_ISSUE, severity := .HIGH,
        confidence := mkRat 85 100,
        reasoning := "Detected security-related keywords in error message" } ∧
    Analysis.ruleBasedClassification "User logged in" =
      { category := .IGNORABLE, severity := .LOW,
        confidence := mkRat 70 100,
        reasoning := "No critical patterns detected" } := by
  refine ⟨fun h1 => ?_, fun h1 h2 => ?_, fun h1 h2 h3 => ?_,
    fun h1 h2 h3 => ?_, by decide, by decide⟩
  · simp [Analysis.ruleBasedClassification, h1]
  · simp [Analysis.ruleBasedClassification, h1, h2]
  · simp [Analysis.ruleBasedClassification, h1, h2, h3]
  · simp [Analysis.ruleBasedClassification, h1, h2, h3]

/-- Witness for `classification_rule_order`: rule 1 fires on a message with
both a security and a validation keyword; rule 3 fires on a system keyword. -/
theorem classification_rule_order_witness :
    Analysis.ruleBasedClassification "unauthorized, invalid" =
      { category := .SECURITY_ISSUE, severity := .HIGH,
        confidence := mkRat 85 100,
        reasoning := "Detected security-related keywords in error message" } ∧
    Analysis.ruleBasedClassification "database down" =
      { category := .SYSTEM_ERROR, severity := .MEDIUM,
        confidence := mkRat 80 100,
        reasoning := "Detected system-level error indicators" } :=
  ⟨(classification_rule_order "unauthorized, invalid").1 (by decide),
   (classification_rule_order "database down").2.2.1
     (by decide) (by decide) (by decide)⟩

/-- C8: `AnalysisAgent.analyze` is total on payloads missing the `message` key
(including the empty payload): the absent field defaults to the empty string,
which no keyword rule matches, so the result is Ignorable/Low/0.70. -/
theorem analyze_total_without_message (payload : List (String × String))
    (h : payload.lookup "message" = Option.none) :
    Analysis.analyze payload =
      { category := .IGNORABLE, severity := .LOW,
        confidence := mkRat 70 100,
        reasoning := "No critical patterns detected" } := by
  simp only [Analysis.analyze, h, Option.getD_none]
  decide

/-- Witness for `analyze_total_without_message` at the empty payload. -/
theorem analyze_total_without_message_witness :
    Analysis.analyze [] =
      { category := .IGNORABLE, severity := .LOW,
        confidence := mkRat 70 100,
        reasoning := "No critical patterns detected" } :=
  analyze_total_without_message [] rfl

/-- C3: Executing NotifyAdmin with an empty configured admin recipient list
returns `success = false` with message exactly "No admin emails configured"
(a reported condition); a delivery failure likewise becomes a
`success = false` outcome carrying the delivery error, and the executor
returns the outcome instead of propagating a fault. -/
theorem notify_admin_reported_failures (env : Exec.ExecEnv)
    (data : Exec.DecisionData) :
    (env.adminEmails = [] →
      Exec.handleNotifyAdmin env data =
        { success := false, action := "notify_admin",
          message := "No admin emails configured", details := [] }) ∧
    (∀ e, env.adminEmails ≠ [] → env.mailError = some e →
      Exec.handleNotifyAdmin env data =
        { success := false, action := "notify_admin",
          message := "Failed to send notification: " ++ e, details := [] }) ∧
    (data.action = "notify_admin" →
      Exec.execute env data = Exec.handleNotifyAdmin env data) := by
  refine ⟨fun h => ?_, fun e hne hm => ?_, fun h => ?_⟩
  · simp [Exec.handleNotifyAdmin, h]
  · cases hl : env.adminEmails with
    | nil => exact absurd hl hne
    | cons a t => simp [Exec.handleNotifyAdmin, hl, hm]
  · have hh : Exec.handlers env "notify_admin" =
        some (Exec.handleNotifyAdmin env) := rfl
    simp [Exec.execute, Exec.executeGeneric, h, hh]

/-- Witness for `notify_admin_reported_failures`: empty recipient list,
failing notification port, and dispatch through `execute`. -/
theorem notify_admin_reported_failures_witness :
    Exec.handleNotifyAdmin { adminEmails := [], mailError := Option.none }
        dataNotify =
      { success := false, action := "notify_admin",
        message := "No admin emails configured", details := [] } ∧
    Exec.handleNotifyAdmin
        { adminEmails := ["ops@example.com"],
          mailError := some "SMTP connection refused" } dataNotify =
      { success := false, action := "notify_admin",
        message := "Failed to send notification: SMTP connection refused",
        details := [] } ∧
    Exec.execute { adminEmails := [], mailError := Option.none } dataNotify =
      Exec.handleNotifyAdmin { adminEmails := [], mailError := Option.none }
        dataNotify :=
  ⟨(notify_admin_reported_failures _ _).1 rfl,
   (notify_admin_reported_failures _ _).2.1 "SMTP connection refused"
     (by decide) rfl,
   (notify_admin_reported_failures _ _).2.2 rfl⟩

/-- C4: Escalate composes exactly the notify and workflow sub-outcomes,
reports `success = true` at the top level regardless of their results, and
records the two sub-outcomes' individual success flags in its details. -/
theorem escalate_composes_suboutcomes (env : Exec.ExecEnv)
    (data : Exec.DecisionData) :
    (Exec.handleEscalate env data).success = true ∧
    (Exec.handleEscalate env data).details.lookup "notification_sent" =
      some (.b (Exec.handleNotifyAdmin env data).success) ∧
    (Exec.handleEscalate env data).details.lookup "workflow_triggered" =
      some (.b (Exec.handleTriggerWorkflow data).success) ∧
    (Exec.handleEscalate env data).details =
      [("notification_sent", .b (Exec.handleNotifyAdmin env data).success),
       ("workflow_triggered", .b (Exec.handleTriggerWorkflow data).success),
       ("escalation_level", .s "critical"),
       ("event_type", .s data.event_type)] :=
  ⟨rfl, rfl, rfl, rfl⟩

/-- C9: a raising handler is caught by `execute` and converted into a
`success = false` outcome whose message prepends "Failed to execute action: "
and whose `action` field is the literal string `"error"`; an unknown action
token gets the same `action`-field substitution. -/
theorem execute_error_substitution :
    (∀ (table : String → Option (Exec.DecisionData → Except String Exec.Outcome))
       (data : Exec.DecisionData)
       (h : Exec.DecisionData → Except String Exec.Outcome) (e : String),
        table data.action = some h → h data = Except.error e →
        Exec.executeGeneric table data =
          { success := false, action := "error",
            message := "Failed to execute action: " ++ e, details := [] }) ∧
    (∀ (env : Exec.ExecEnv) (data : Exec.DecisionData),
        Exec.handlers env data.action = Option.none →
        Exec.execute env data =
          { success := false, action := "error",
            message := "Unknown action: " ++ data.action, details := [] }) := by
  refine ⟨fun table data h e h1 h2 => ?_, fun env data h => ?_⟩
  · simp [Exec.executeGeneric, h1, h2, Exec.errorResponse]
  · simp [Exec.execute, Exec.executeGeneric, h, Exec.errorResponse]

/-- Witness for `execute_error_substitution`: a raising handler and an
unknown action token. -/
theorem execute_error_substitution_witness :
    Exec.executeGeneric raisingTable dataNotify =
      { success := false, action := "error",
        message := "Failed to execute action: boom", details := [] } ∧
    Exec.execute { adminEmails := [], mailError := Option.none }
        dataUnknownAction =
      { success := false, action := "error",
        message := "Unknown action: purge_cache", details := [] } :=
  ⟨execute_error_substitution.1 raisingTable dataNotify
      (fun _ => Except.error "boom") "boom" rfl rfl,
   execute_error_substitution.2 { adminEmails := [], mailError := Option.none }
      dataUnknownAction rfl⟩

/-- C10: the severity-to-log-level mapping is total — any severity string
outside low/medium/high/critical silently defaults to `logging.INFO`. -/
theorem log_level_defaults_to_info (severity : String)
    (h1 : severity ≠ "low") (h2 : severity ≠ "medium")
    (h3 : severity ≠ "high") (h4 : severity ≠ "critical") :
    Exec.getLogLevel severity = Exec.logINFO := by
  simp [Exec.getLogLevel, h1, h2, h3, h4]

/-- Witness for `log_level_defaults_to_info` at an unrecognized token. -/
theorem log_level_defaults_to_info_witness :
    Exec.getLogLevel "fatal" = Exec.logINFO :=
  log_level_defaults_to_info "fatal" (by decide) (by decide) (by decide)
    (by decide)

/-- C5 counterexample: in `badSeverityOverride` the entry
`("high", ("escalate", 1))` is well formed, yet after construction the lookup
for (validation_error, high) still returns the default `(NOTIFY_ADMIN, 3)`:
the malformed `"bogus"` entry earlier in the same group aborted the rest of
the group (the `try` wraps the whole inner loop), even though the group's
first entry `("low", ("notify_admin", 2))` was applied.  So a bad entry does
invalidate later well-formed entries of its group. -/
theorem custom_rule_skip_counterexample :
    Router.parseSeverity "high" = some Router.SeverityLevel.HIGH ∧
    Router.parseAction "escalate" = some Router.ActionType.ESCALATE ∧
    Router.getActionForEvent (Router.initRoutingRules badSeverityOverride)
        Router.EventType.VALIDATION_ERROR Router.SeverityLevel.LOW =
      (Router.ActionType.NOTIFY_ADMIN, 2) ∧
    Router.getActionForEvent (Router.initRoutingRules badSeverityOverride)
        Router.EventType.VALIDATION_ERROR Router.SeverityLevel.HIGH =
      (Router.ActionType.NOTIFY_ADMIN, 3) ∧
    (Router.ActionType.NOTIFY_ADMIN, (3 : Int)) ≠
      (Router.ActionType.ESCALATE, 1) := by
  decide

/-- C5 (amended): construction never fails, and isolation holds per GROUP
rather than per entry: a group under an unknown category token is skipped
without affecting the other groups, and inside one group a malformed
severity/action token aborts exactly the remainder of that group — entries
before it stay applied, entries after it are dropped. -/
theorem custom_rule_group_isolation :
    (∀ (r : Router.RoutingRules) (etStr : String)
       (group : List (String × (String × Int))) (rest : Router.CustomRules),
        Router.parseEventType etStr = Option.none →
        Router.applyCustomRules r ((etStr, group) :: rest) =
          Router.applyCustomRules r rest) ∧
    (∀ (r : Router.RoutingRules) (et : Router.EventType)
       (pre : List (String × (String × Int))) (sevStr actStr : String)
       (p : Int) (post : List (String × (String × Int))),
        Router.parseSeverity sevStr = Option.none ∨
          Router.parseAction actStr = Option.none →
        Router.applyGroup r et (pre ++ (sevStr, (actStr, p)) :: post) =
          Router.applyGroup r et pre) := by
  constructor
  · intro r etStr group rest h
    simp [Router.applyCustomRules, h]
  · intro r et pre sevStr actStr p post hbad
    induction pre generalizing r with
    | nil =>
      rcases hbad with h | h
      · simp [Router.applyGroup, h]
      · cases hsev : Router.parseSeverity sevStr with
        | none => simp [Router.applyGroup, hsev]
        | some sev => simp [Router.applyGroup, hsev, h]
    | cons head tail ih =>
      obtain ⟨s, a, q⟩ := head
      simp only [List.cons_append, Router.applyGroup]
      cases hs : Router.parseSeverity s with
      | none => rfl
      | some sev =>
        cases ha : Router.parseAction a with
        | none => rfl
        | some act => exact ih _

/-- Witness for `custom_rule_group_isolation`: a skipped unknown-category
group, and a group whose tail is cut off at the malformed entry. -/
theorem custom_rule_group_isolation_witness :
    Router.applyCustomRules Router.defaultRules
        [("bogus_category", [("low", ("log_only", 1))])] =
      Router.applyCustomRules Router.defaultRules [] ∧
    Router.applyGroup Router.defaultRules Router.EventType.VALIDATION_ERROR
        ([("low", ("notify_admin", 2))] ++
          ("bogus", ("log_only", 1)) :: [("high", ("escalate", 1))]) =
      Router.applyGroup Router.defaultRules Router.EventType.VALIDATION_ERROR
        [("low", ("notify_admin", 2))] :=
  ⟨custom_rule_group_isolation.1 Router.defaultRules "bogus_category"
      [("low", ("log_only", 1))] [] rfl,
   custom_rule_group_isolation.2 Router.defaultRules
      Router.EventType.VALIDATION_ERROR [("low", ("notify_admin", 2))]
      "bogus" "log_only" 1 [("high", ("escalate", 1))] (Or.inl rfl)⟩

/-- C7 counterexample: a router built with the caller-supplied override
`("validation_error", high) ↦ ("notify_admin", 42)` produces a
`RoutingDecision` with priority 42, outside `[1, 5]` — the source applies
override priorities without any range check. -/
theorem route_priority_counterexample :
    (Router.route (Router.initRoutingRules badPriorityOverride)
        overrideEvent).priority = 42 ∧
    ¬(1 ≤ (Router.route (Router.initRoutingRules badPriorityOverride)
            overrideEvent).priority ∧
      (Router.route (Router.initRoutingRules badPriorityOverride)
            overrideEvent).priority ≤ 5) := by
  decide

theorem defaultRules_priorityBounded : priorityBounded Router.defaultRules := by
  intro et sev a p h
  cases et <;> cases sev <;>
    simp only [Router.defaultRules, Option.some.injEq, Prod.mk.injEq] at h <;>
    omega

theorem priorityBounded_updateRule {r : Router.RoutingRules}
    (hb : priorityBounded r) {et : Router.EventType}
    {sev : Router.SeverityLevel} {a : Router.ActionType} {p : Int}
    (hp : 1 ≤ p ∧ p ≤ 5) :
    priorityBounded (Router.updateRule r et sev (a, p)) := by
  intro et' sev' a' p' h
  unfold Router.updateRule at h
  split at h
  · split at h
    · obtain ⟨h1, h2⟩ := Prod.mk.inj (Option.some.inj h)
      omega
    · exact hb _ _ _ _ h
  · exact hb _ _ _ _ h

theorem priorityBounded_applyGroup {r : Router.RoutingRules}
    (hb : priorityBounded r) (et : Router.EventType)
    (g : List (String × (String × Int)))
    (hg : ∀ e ∈ g, 1 ≤ e.2.2 ∧ e.2.2 ≤ 5) :
    priorityBounded (Router.applyGroup r et g) := by
  induction g generalizing r with
  | nil => exact hb
  | cons head tail ih =>
    obtain ⟨s, a, q⟩ := head
    simp only [Router.applyGroup]
    cases hs : Router.parseSeverity s with
    | none => exact hb
    | some sev =>
      cases ha : Router.parseAction a with
      | none => exact hb
      | some act =>
        exact ih
          (priorityBounded_updateRule hb (hg (s, (a, q)) (List.mem_cons_self _ _)))
          (fun e he => hg e (List.mem_cons_of_mem _ he))

theorem priorityBounded_applyCustomRules {r : Router.RoutingRules}
    (hb : priorityBounded r) (c : Router.CustomRules)
    (hc : ∀ g ∈ c, ∀ e ∈ g.2, 1 ≤ e.2.2 ∧ e.2.2 ≤ 5) :
    priorityBounded (Router.applyCustomRules r c) := by
  induction c generalizing r with
  | nil => exact hb
  | cons head rest ih =>
    obtain ⟨etStr, group⟩ := head
    simp only [Router.applyCustomRules]
    cases he : Router.parseEventType etStr with
    | none => exact ih hb (fun g hg => hc g (List.mem_cons_of_mem _ hg))
    | some et =>
      exact ih
        (priorityBounded_applyGroup hb et group
          (fun e hegrp => hc (etStr, group) (List.mem_cons_self _ _) e hegrp))
        (fun g hg => hc g (List.mem_cons_of_mem _ hg))

theorem priorityBounded_getAction {r : Router.RoutingRules}
    (hb : priorityBounded r) (et : Router.EventType)
    (sev : Router.SeverityLevel) :
    1 ≤ (Router.getActionForEvent r et sev).2 ∧
      (Router.getActionForEvent r et sev).2 ≤ 5 := by
  unfold Router.getActionForEvent
  cases h : r et sev with
  | none => exact ⟨by norm_num, by norm_num⟩
  | some ap => exact hb et sev ap.1 ap.2 (by rw [h])

/-- C7 (amended): every `RoutingDecision` produced by a router with no custom
rules has priority in `[1, 5]`; with caller-supplied overrides this holds
provided every override entry's priority lies in `[1, 5]` (the source performs
no range check of its own, as the counterexample shows). -/
theorem route_priority_in_range :
    (∀ ev : Router.AnalyzedEvent,
        1 ≤ (Router.route Router.defaultRules ev).priority ∧
        (Router.route Router.defaultRules ev).priority ≤ 5) ∧
    (∀ custom : Router.CustomRules,
        (∀ g ∈ custom, ∀ e ∈ g.2, 1 ≤ e.2.2 ∧ e.2.2 ≤ 5) →
        ∀ ev : Router.AnalyzedEvent,
          1 ≤ (Router.route (Router.initRoutingRules custom) ev).priority ∧
          (Router.route (Router.initRoutingRules custom) ev).priority ≤ 5) := by
  constructor
  · intro ev
    exact priorityBounded_getAction defaultRules_priorityBounded
      ev.event_type ev.severity
  · intro custom hc ev
    exact priorityBounded_getAction
      (priorityBounded_applyCustomRules defaultRules_priorityBounded custom hc)
      ev.event_type ev.severity

/-- Witness for `route_priority_in_range` at an in-range override set. -/
theorem route_priority_in_range_witness :
    1 ≤ (Router.route (Router.initRoutingRules inRangeOverride)
          overrideEvent).priority ∧
    (Router.route (Router.initRoutingRules inRangeOverride)
          overrideEvent).priority ≤ 5 :=
  route_priority_in_range.2 inRangeOverride (by decide) overrideEvent

/-- A hit in the `all_fields` dict names a schema entry: `allFields` returns
`some fs` only when `fs` is a schema entry whose name is the looked-up key. -/
theorem allFields_mem {schema : List Validation.FieldSchema} {n : String}
    {fs : Validation.FieldSchema} (h : Validation.allFields schema n = some fs) :
    fs ∈ schema ∧ fs.name = n := by
  have H : ∀ (l : List Validation.FieldSchema) (acc : Option Validation.FieldSchema),
      l.foldl (fun acc f => if f.name = n then some f else acc) acc = some fs →
      (fs ∈ l ∧ fs.name = n) ∨ acc = some fs := by
    intro l
    induction l with
    | nil => intro acc h2; exact Or.inr h2
    | cons f t ih =>
      intro acc h2
      rcases ih _ h2 with h3 | h3
      · exact Or.inl ⟨List.mem_cons_of_mem _ h3.1, h3.2⟩
      · by_cases hn : f.name = n
        · rw [show ((fun acc f => if f.name = n then some f else acc) acc f) =
              (if f.name = n then some f else acc) from rfl, if_pos hn] at h3
          obtain rfl := Option.some.inj h3
          exact Or.inl ⟨List.mem_cons_self _ _, hn⟩
        · rw [show ((fun acc f => if f.name = n then some f else acc) acc f) =
              (if f.name = n then some f else acc) from rfl, if_neg hn] at h3
          exact Or.inr h3
  rcases H schema Option.none h with h2 | h2
  · exact h2
  · simp at h2

/-- An error entry produced by `fieldError` is keyed by the payload field it
came from, and that field is declared in the schema. -/
theorem fieldError_fst {schema : List Validation.FieldSchema}
    {kv : String × Validation.PyVal} {r : String × String}
    (h : Validation.fieldError schema kv = some r) :
    r.1 = kv.1 ∧ ∃ fs ∈ schema, fs.name = kv.1 := by
  unfold Validation.fieldError at h
  split at h
  next => exact absurd h (by simp)
  next fs hAll =>
    obtain ⟨hfs, hfsname⟩ := allFields_mem hAll
    refine ⟨?_, fs, hfs, hfsname⟩
    split at h
    · obtain rfl := Option.some.inj h
      rfl
    · split at h
      next v =>
        split at h
        · obtain rfl := Option.some.inj h
          rfl
        · exact absurd h (by simp)
      next => exact absurd h (by simp)

/-- C6 counterexample: against `typedSchema` (one required INTEGER field
`"age"`), the payload `typedPayload` contains every required field plus the
extra undeclared `"debug"`, yet `validate` reports it invalid, because the
present `"age"` fails its type check.  So "a payload containing all required
fields plus extra undeclared fields is valid" is false for typed schemas. -/
theorem validator_extras_counterexample :
    Validation.checkMissingFields typedSchema typedPayload = [] ∧
    typedPayload.map Prod.fst = ["age", "debug"] ∧
    (Validation.validate typedSchema typedPayload).is_valid = false := by
  refine ⟨by decide, by decide, by decide⟩

/-- C6 (amended): `missingFields` is the lexicographically sorted,
duplicate-free list of exactly the required schema names absent from the
payload; payload fields not declared in the schema are never flagged invalid;
`isValid` holds iff there are no missing and no invalid fields; and a payload
containing all required fields (plus any extra undeclared fields) is valid
PROVIDED every declared field present passes its type check and custom
validator — with an all-ANY, validator-free schema that proviso always
holds. -/
theorem validator_field_detection (schema : List Validation.FieldSchema)
    (payload : List (String × Validation.PyVal)) :
    List.Sorted (· ≤ ·) (Validation.checkMissingFields schema payload) ∧
    (Validation.checkMissingFields schema payload).Nodup ∧
    (∀ n : String, n ∈ Validation.checkMissingFields schema payload ↔
        ((∃ f ∈ schema, f.required = true ∧ f.name = n) ∧
         n ∉ payload.map Prod.fst)) ∧
    (∀ n msg, (n, msg) ∈ Validation.checkFieldValidity schema payload →
        ∃ f ∈ schema, f.name = n) ∧
    ((Validation.validate schema payload).is_valid = true ↔
        (Validation.checkMissingFields schema payload = [] ∧
         Validation.checkFieldValidity schema payload = [])) ∧
    ((∀ f ∈ schema, f.required = true → f.name ∈ payload.map Prod.fst) →
      Validation.checkFieldValidity schema payload = [] →
      (Validation.validate schema payload).is_valid = true) := by
  have hmem : ∀ n : String, n ∈ Validation.checkMissingFields schema payload ↔
      ((∃ f ∈ schema, f.required = true ∧ f.name = n) ∧
       n ∉ payload.map Prod.fst) := by
    intro n
    simp only [Validation.checkMissingFields, Validation.requiredFields,
      List.mem_insertionSort, List.mem_dedup, List.mem_filter, List.mem_map]
    simp
    tauto
  have hiff : (Validation.validate schema payload).is_valid = true ↔
      (Validation.checkMissingFields schema payload = [] ∧
       Validation.checkFieldValidity schema payload = []) := by
    simp [Validation.validate, Bool.and_eq_true, List.isEmpty_iff]
  refine ⟨?_, ?_, hmem, ?_, hiff, ?_⟩
  · unfold Validation.checkMissingFields
    exact List.sorted_insertionSort _ _
  · unfold Validation.checkMissingFields
    exact (List.perm_insertionSort _ _).nodup_iff.mpr (List.nodup_dedup _)
  · intro n msg hm
    rw [Validation.checkFieldValidity, List.mem_filterMap] at hm
    obtain ⟨kv, hkv, hfe⟩ := hm
    obtain ⟨h1, fs, hfs, hname⟩ := fieldError_fst hfe
    exact ⟨fs, hfs, hname.trans h1.symm⟩
  · intro hreq hinv
    refine hiff.mpr ⟨?_, hinv⟩
    rw [List.eq_nil_iff_forall_not_mem]
    intro n hn
    obtain ⟨⟨f, hf, hfr, rfl⟩, hnin⟩ := (hmem n).mp hn
    exact hnin (hreq f hf hfr)

/-- Witness for `validator_field_detection`: an all-required-present payload
with one extra field against the all-ANY schema is valid. -/
theorem validator_field_detection_witness :
    (Validation.validate anySchema anyPayload).is_valid = true :=
  (validator_field_detection anySchema anyPayload).2.2.2.2.2
    (by decide) (by decide)

end IBOA
